import Mathlib

/-!
Verification of the M-Pesa unified API core (transaction reference
reconciliation and outbound-call orchestration layer).

This file shallowly embeds the relevant parts of the repository:
the response-code translation table (`app/core/mpesa_codes.py`), the
outbound gateway client result shape (`app/services/mpesa_client.py`),
the C2B orchestrator (`app/services/c2b_service.py`), the reversal and
query-customer payload builders (`app/services/reversal_service.py`,
`app/services/query_customer_service.py`), the audit dispatcher
(`app/services/database_service.py`) and the C2B router envelope logic
(`app/api/v1/routers/c2b.py`).

Python dicts of string keys are embedded as association lists looked up
with `find?`; Python exceptions are embedded as `Except String`;
Python `set` objects are embedded as `List String` with `insert`
(membership-equivalent); wall-clock timestamps and random suffixes are
passed in as explicit oracle arguments.
-/

namespace MpesaVerif

/-- Translation table entry: the value shape of `MPESA_RESPONSE_CODES`
(`mpesa_codes.py`), a record with an integer HTTP status, a message and a
success flag. -/
structure MpesaCodeInfo where
  http_status : Nat
  message : String
  success : Bool
deriving DecidableEq, Repr

/-- The `MPESA_RESPONSE_CODES` table of `app/core/mpesa_codes.py`, embedded
as an association list in source order. -/
def MPESA_RESPONSE_CODES : List (String × MpesaCodeInfo) :=
  [ ("INS-0", ⟨201, "Request processed successfully", true⟩),
    ("INS-1", ⟨500, "Internal Error", false⟩),
    ("INS-2", ⟨401, "Invalid API Key", false⟩),
    ("INS-4", ⟨401, "User is not active", false⟩),
    ("INS-5", ⟨401, "Transaction cancelled by customer", false⟩),
    ("INS-6", ⟨401, "Transaction Failed", false⟩),
    ("INS-9", ⟨408, "Request timeout", false⟩),
    ("INS-10", ⟨409, "Duplicate Transaction", false⟩),
    ("INS-13", ⟨400, "Invalid Shortcode Used", false⟩),
    ("INS-14", ⟨400, "Invalid Reference Used", false⟩),
    ("INS-15", ⟨400, "Invalid Amount Used", false⟩),
    ("INS-16", ⟨503, "Unable to handle the request due to a temporary overloading", false⟩),
    ("INS-17", ⟨400, "Invalid Transaction Reference. Length Should Be Between 1 and 20.", false⟩),
    ("INS-18", ⟨400, "Invalid TransactionID Used", false⟩),
    ("INS-19", ⟨400, "Invalid ThirdPartyReference Used", false⟩),
    ("INS-20", ⟨400, "Not All Parameters Provided. Please try again.", false⟩),
    ("INS-21", ⟨400, "Parameter validations failed. Please try again.", false⟩),
    ("INS-22", ⟨400, "Invalid Operation Type", false⟩),
    ("INS-23", ⟨400, "Unknown Status. Contact M-Pesa Support", false⟩),
    ("INS-2001", ⟨400, "Initiator authentication error.", false⟩),
    ("INS-2002", ⟨400, "Receiver invalid.", false⟩),
    ("INS-2006", ⟨422, "Insufficient balance", false⟩),
    ("INS-2051", ⟨400, "MSISDN invalid.", false⟩),
    ("INS-2057", ⟨400, "Language code invalid.", false⟩),
    ("INS-999", ⟨500, "Unknown M-Pesa error", false⟩) ]

/-- Model of `get_mpesa_code_info` (`mpesa_codes.py` lines 140-144):
`MPESA_RESPONSE_CODES.get(response_code, MPESA_RESPONSE_CODES["INS-999"])`.
The innermost branch is unreachable because the table contains the key
`"INS-999"` (it repeats the table's own `"INS-999"` entry so the function
stays total). -/
def get_mpesa_code_info (response_code : String) : MpesaCodeInfo :=
  match MPESA_RESPONSE_CODES.find? (fun p => p.1 == response_code) with
  | some p => p.2
  | none =>
    match MPESA_RESPONSE_CODES.find? (fun p => p.1 == "INS-999") with
    | some p => p.2
    | none => ⟨500, "Unknown M-Pesa error", false⟩

/-- Values a parsed gateway body can hold (the subset of Python runtime
values the services' handling distinguishes: strings, integers,
dictionaries, and `None`; other containers behave exactly like the
dictionary case for the operations used). -/
inductive PyVal where
  | str (s : String)
  | intVal (n : Int)
  | dict (fields : List (String × PyVal))
  | null
deriving Repr

/-- Python truthiness for the values of `PyVal`, as used by
`if descricao_mpesa` in `_processar_resposta_mpesa`. -/
def PyVal.truthy : PyVal → Bool
  | .str s => !s.isEmpty
  | .intVal n => n != 0
  | .dict fields => !fields.isEmpty
  | .null => false

/-- Model of `dados_corpo.get(key)` on an embedded Python dict. -/
def dictGet (fields : List (String × PyVal)) (key : String) : Option PyVal :=
  (fields.find? (fun p => p.1 == key)).map (fun p => p.2)

/-- Using a fetched value as a required `str` field of a pydantic response
model: strings pass through, numbers are coerced to their decimal string,
`None` and containers fail validation (a raised `ValidationError`). -/
def asStr : PyVal → Except String String
  | .str s => Except.ok s
  | .intVal n => Except.ok (toString n)
  | .dict _ => Except.error "ValidationError"
  | .null => Except.error "ValidationError"

/-- Using a fetched value as an `Optional[str]` field of a pydantic
response model (an absent key or a stored `None` gives `none`). -/
def asOptStr : Option PyVal → Except String (Option String)
  | Option.none => Except.ok Option.none
  | some (PyVal.str s) => Except.ok (some s)
  | some (PyVal.intVal n) => Except.ok (some (toString n))
  | some PyVal.null => Except.ok Option.none
  | some (PyVal.dict _) => Except.error "ValidationError"

/-- Applying `get_mpesa_code_info` to the raw value fetched from the body:
the table is keyed by strings, so any non-string key misses every entry
and yields the fallback, exactly as Python `dict.get` would. -/
def getMpesaCodeInfoVal : PyVal → MpesaCodeInfo
  | .str s => get_mpesa_code_info s
  | _ => ⟨500, "Unknown M-Pesa error", false⟩

/-- The body slot of the gateway client's result dict. A present body is
either a parsed dict, a raw string (carrying the outcome `json.loads`
would produce for it, `none` when parsing raises), or another
non-dict value. -/
inductive BodyVal where
  | dict (fields : List (String × PyVal))
  | str (raw : String) (parsed : Option PyVal)
  | intVal (n : Int)
deriving Repr

/-- Model of the dict returned by `MpesaClient.execute_request`
(`mpesa_client.py`): `status_code`, `success`, an optional `body`
(`Option.none` covers both a missing `body` key and `body = None`,
which `_processar_resposta_mpesa` treats identically), and the optional
`error` message of the exception path. -/
structure GatewayResult where
  status_code : Nat
  success : Bool
  body : Option BodyVal
  error : Option String
deriving Repr

/-- Model of the non-exception return of `MpesaClient.execute_request`
(`mpesa_client.py` lines 71-75): the `success` flag is set to
`status_code == 200`, and the transport body is passed through. -/
def executeRequestOk (status : Nat) (body : Option BodyVal) : GatewayResult :=
  ⟨status, status == 200, body, Option.none⟩

/-- Model of the exception path of `MpesaClient.execute_request`
(`mpesa_client.py` lines 77-83): a transport exception is converted to
a result dict with `success = False`, `status_code = 500`, the exception
message under `error`, and no `body` key. -/
def transportFailureResult (e : String) : GatewayResult :=
  ⟨500, false, Option.none, some e⟩

/-- The `C2BPaymentRequest` schema (`app/models/schemas/c2b.py`): the
validated inbound fields the C2B service reads. The amount is carried as
its rendered decimal string (the payload uses `str(amount)`; its numeric
value is irrelevant to the properties proved here). -/
structure C2BPaymentRequest where
  transaction_reference : String
  customer_msisdn : String
  amount : String
  third_party_reference : Option String
deriving Repr

/-- The `C2BPaymentResponse` schema (`app/models/schemas/c2b.py`):
`transaction_id` and `conversation_id` are `Optional[str]`, the other
three fields are required strings. -/
structure C2BPaymentResponse where
  transaction_id : Option String
  conversation_id : Option String
  third_party_reference : String
  response_code : String
  response_description : String
deriving DecidableEq, Repr

/-- Model of `C2BService._gerar_third_party_reference`: the generated
token is the literal `mpesa_<timestamp>_<random8hex>`; the timestamp and
random component are oracle arguments. -/
def gerar_third_party_reference (ts rnd : String) : String :=
  "mpesa_" ++ ts ++ "_" ++ rnd

/-- Model of `C2BService._obter_third_party_reference` (`c2b_service.py`
lines 64-83), the hybrid policy: a truthy client token is used as-is when
not in the used-set; a duplicate or absent token triggers generation.
(Python truthiness: `None` and the empty string both take the generate
branch.) -/
def obter_third_party_reference (client_token : Option String)
    (used : List String) (ts rnd : String) : String :=
  match client_token with
  | some ref =>
    if !ref.isEmpty then
      if used.contains ref then gerar_third_party_reference ts rnd else ref
    else
      gerar_third_party_reference ts rnd
  | Option.none => gerar_third_party_reference ts rnd

/-- Steps 1-2 of `process_payment`: resolve the reference via the hybrid
policy, then `_armazenar_mapeamento_referencia` adds the chosen reference
to the in-memory used-set (`self._referencias_utilizadas.add`). -/
def resolveReference (client_token : Option String) (used : List String)
    (ts rnd : String) : String × List String :=
  let ref := obter_third_party_reference client_token used ts rnd
  (ref, used.insert ref)

/-- The body-normalisation prelude shared by both branches of
`_processar_resposta_mpesa`: a dict body is used directly; a string body
is `json.loads`-parsed (a parse failure is caught and replaced by the
empty dict); a body whose final value is not a dict makes the subsequent
`.get` attribute access raise. -/
def asDictAfterParse : BodyVal → Except String (List (String × PyVal))
  | .dict fields => Except.ok fields
  | .str _ parsed =>
    match parsed with
    | Option.none => Except.ok []
    | some (PyVal.dict fields) => Except.ok fields
    | some _ => Except.error "AttributeError"
  | .intVal _ => Except.error "AttributeError"

/-- The success branch of `_processar_resposta_mpesa` (`c2b_service.py`
lines 178-208): the response code defaults to `"INS-0"`, the description
is always the table message for the code, and the gateway identifiers are
copied from the body. -/
def processSuccessBranch (corpo : List (String × PyVal)) (third_party_ref : String) :
    Except String C2BPaymentResponse :=
  let codeVal := (dictGet corpo "output_ResponseCode").getD (PyVal.str "INS-0")
  let info := getMpesaCodeInfoVal codeVal
  match asStr codeVal, asOptStr (dictGet corpo "output_TransactionID"),
      asOptStr (dictGet corpo "output_ConversationID") with
  | Except.ok code, Except.ok tid, Except.ok cid =>
    Except.ok ⟨tid, cid, third_party_ref, code, info.message⟩
  | Except.error e, _, _ => Except.error e
  | _, Except.error e, _ => Except.error e
  | _, _, Except.error e => Except.error e

/-- The description selection of the error branch: the gateway's own
`output_ResponseDesc` is preferred when truthy, otherwise the table
message for the code is used. -/
def descFinal (corpo : List (String × PyVal)) (info : MpesaCodeInfo) :
    Except String String :=
  match dictGet corpo "output_ResponseDesc" with
  | some v => if v.truthy then asStr v else Except.ok info.message
  | Option.none => Except.ok info.message

/-- The error branch of `_processar_resposta_mpesa` (`c2b_service.py`
lines 209-244): the response code defaults to `"INS-999"` and the
description prefers the gateway's own text. -/
def processErrorBranch (corpo : List (String × PyVal)) (third_party_ref : String) :
    Except String C2BPaymentResponse :=
  let codeVal := (dictGet corpo "output_ResponseCode").getD (PyVal.str "INS-999")
  let info := getMpesaCodeInfoVal codeVal
  match asStr codeVal, descFinal corpo info,
      asOptStr (dictGet corpo "output_TransactionID"),
      asOptStr (dictGet corpo "output_ConversationID") with
  | Except.ok code, Except.ok desc, Except.ok tid, Except.ok cid =>
    Except.ok ⟨tid, cid, third_party_ref, code, desc⟩
  | Except.error e, _, _, _ => Except.error e
  | _, Except.error e, _, _ => Except.error e
  | _, _, Except.error e, _ => Except.error e
  | _, _, _, Except.error e => Except.error e

/-- Model of `C2BService._processar_resposta_mpesa` (`c2b_service.py`
lines 153-244): a missing or `None` body short-circuits to the fixed
`"INS-999"` response; otherwise the success branch runs when the result
reports success with status 200 or 201, and the error branch runs
otherwise. Raised exceptions surface as `Except.error` for the caller
(`process_payment`) to catch. -/
def processar_resposta_mpesa (resultado : GatewayResult) (third_party_ref : String) :
    Except String C2BPaymentResponse :=
  match resultado.body with
  | Option.none =>
    Except.ok ⟨Option.none, Option.none, third_party_ref, "INS-999",
      "Resposta inválida da M-Pesa (sem body)"⟩
  | some body =>
    match asDictAfterParse body with
    | Except.error e => Except.error e
    | Except.ok corpo =>
      if resultado.success && (resultado.status_code == 200 || resultado.status_code == 201) then
        processSuccessBranch corpo third_party_ref
      else
        processErrorBranch corpo third_party_ref

/-- The catch-all response of `process_payment` (`c2b_service.py` lines
140-151): any exception inside the orchestration is converted into an
`"INS-999"` response carrying the resolved reference. -/
def processPaymentCatch (ref e : String) : C2BPaymentResponse :=
  ⟨Option.none, Option.none, ref, "INS-999", "Erro no serviço: " ++ e⟩

/-- Model of `C2BService.process_payment` (`c2b_service.py` lines 85-151)
against an arbitrary behaviour of the gateway client: the client call
either raises (`Except.error`) or returns a result dict. The reference is
resolved and stored in the used-set before the call; any exception from
the client call or from response processing is caught and converted to
the `"INS-999"` catch response (in the model the reference is always
resolved before any raising step, so the `'third_party_ref' in locals()`
fallback string `"ref_erro"` of the source is unreachable). Returns the
response together with the updated used-set. -/
def processPayment (req : C2BPaymentRequest) (used : List String) (ts rnd : String)
    (gw : Except String GatewayResult) : C2BPaymentResponse × List String :=
  let ref := obter_third_party_reference req.third_party_reference used ts rnd
  let used2 := used.insert ref
  match gw with
  | Except.error e => (processPaymentCatch ref e, used2)
  | Except.ok resultado =>
    match processar_resposta_mpesa resultado ref with
    | Except.ok resposta => (resposta, used2)
    | Except.error e => (processPaymentCatch ref e, used2)

/-- Server-side configuration (`app/core/config.py`): the field of
`Settings` the payload builders read. -/
structure Settings where
  MPESA_SERVICE_PROVIDER_CODE : String
deriving Repr

/-- Lookup of a key in an outbound payload (embedded as an association
list of string pairs in construction order). -/
def payloadGet (payload : List (String × String)) (key : String) : Option String :=
  (payload.find? (fun p => p.1 == key)).map (fun p => p.2)

/-- Python `x or dflt` on an optional string field: `None` and the empty
string are falsy and give the default. -/
def pyOrStr (v : Option String) (dflt : String) : String :=
  match v with
  | some s => if s.isEmpty then dflt else s
  | Option.none => dflt

/-- The outbound C2B payload (`c2b_service.py` lines 101-108): the
`input_ServiceProviderCode` entry is `settings.MPESA_SERVICE_PROVIDER_CODE`. -/
def c2bPayload (s : Settings) (req : C2BPaymentRequest) (third_party_ref : String) :
    List (String × String) :=
  [ ("input_TransactionReference", req.transaction_reference),
    ("input_ThirdPartyReference", third_party_ref),
    ("input_CustomerMSISDN", req.customer_msisdn),
    ("input_Amount", req.amount),
    ("input_ServiceProviderCode", s.MPESA_SERVICE_PROVIDER_CODE) ]

/-- The `ReversalRequest` schema (`app/models/schemas/reversal.py`); the
optional reversal amount is carried as its rendered decimal string. -/
structure ReversalRequest where
  transaction_id : String
  security_credential : String
  initiator_identifier : String
  third_party_reference : String
  service_provider_code : Option String
  reversal_amount : Option String
deriving DecidableEq, Repr

/-- The outbound reversal payload (`reversal_service.py` lines 30-41):
`input_ServiceProviderCode` is `reversal_data.service_provider_code or
"900579"` — a client-supplied field — and `input_ReversalAmount` is
appended when provided. -/
def reversalPayload (r : ReversalRequest) : List (String × String) :=
  [ ("input_TransactionID", r.transaction_id),
    ("input_SecurityCredential", r.security_credential),
    ("input_InitiatorIdentifier", r.initiator_identifier),
    ("input_ThirdPartyReference", r.third_party_reference),
    ("input_ServiceProviderCode", pyOrStr r.service_provider_code "900579") ]
  ++ (match r.reversal_amount with
      | some a => [("input_ReversalAmount", a)]
      | Option.none => [])

/-- The `QueryCustomerRequest` schema
(`app/models/schemas/query_customer.py`). -/
structure QueryCustomerRequest where
  customer_msisdn : String
  third_party_reference : String
  service_provider_code : Option String
deriving DecidableEq, Repr

/-- The outbound query-customer payload (`query_customer_service.py`
lines 30-35): `input_ServiceProviderCode` is
`query_data.service_provider_code or "900579"` — a client-supplied
field. -/
def queryCustomerPayload (q : QueryCustomerRequest) : List (String × String) :=
  [ ("input_CustomerMSISDN", q.customer_msisdn),
    ("input_ThirdPartyReference", q.third_party_reference),
    ("input_ServiceProviderCode", pyOrStr q.service_provider_code "900579") ]

/-- The success envelope of the C2B endpoint (`APIResponse` of
`app/models/schemas/base.py` as the router fills it). -/
structure APIResponseC2B where
  success : Bool
  data : Option C2BPaymentResponse
  message : String
deriving DecidableEq, Repr

/-- The outcome of the C2B endpoint: either a body with the route's HTTP
status, or a raised `HTTPException` with a status and an error object. -/
inductive EndpointResult where
  | ok (http_status : Nat) (envelope : APIResponseC2B)
  | httpError (http_status : Nat) (code message : String)
deriving DecidableEq, Repr

/-- Model of the envelope logic of `create_c2b_payment`
(`app/api/v1/routers/c2b.py` lines 58-80): the service result's response
code is translated; on a success translation the route returns its
declared 201 status with a `success=True` envelope, otherwise it raises
`HTTPException` with the translated status and the error object. -/
def createC2BPaymentEnvelope (result : C2BPaymentResponse) : EndpointResult :=
  let code_info := get_mpesa_code_info result.response_code
  if code_info.success then
    EndpointResult.ok 201 ⟨true, some result, "Payment processed successfully"⟩
  else
    EndpointResult.httpError code_info.http_status result.response_code
      result.response_description

/-- The used-set a router-handled C2B request starts from: each request
constructs a fresh `C2BService` (`c2b.py` line 55), whose `__init__`
(`c2b_service.py` lines 26-34) sets `self._referencias_utilizadas =
set()`, so the set is empty at the start of every request. -/
def freshServiceUsedSet : List String := []

/-- Reference resolution as the deployed route performs it: resolution
runs against the fresh (empty) used-set of the per-request service
instance. -/
def handleC2BResolution (client_token : Option String) (ts rnd : String) :
    String × List String :=
  resolveReference client_token freshServiceUsedSet ts rnd

/-- An entry of the local fallback file written by
`DatabaseService._salvar_fallback_local` (`database_service.py` lines
123-146): a freshly generated correlation id, a timestamp, the fallback
reason tag and the audit record itself. `α` is the (opaque) type of audit
records; the dispatcher never inspects them. -/
structure FallbackEntry (α : Type) where
  id_fallback : String
  timestamp : String
  motivo_fallback : String
  dados : α
deriving DecidableEq, Repr

/-- The state of a `DatabaseService` instance (`database_service.py`
lines 19-24) together with the local fallback file it appends to. -/
structure DbState (α : Type) where
  fila : List α
  processando : Bool
  total_processados : Nat
  total_falha : Nat
  fallback_file : List (FallbackEntry α)
deriving DecidableEq, Repr

/-- The trace of one `_salvar_com_retry` call (`database_service.py`
lines 90-121): whether it returned `True`, how many insert attempts it
made, and the backoff sleeps (in seconds) it performed between attempts. -/
structure RetryTrace where
  sucesso : Bool
  tentativas : Nat
  sleeps : List ℚ
deriving DecidableEq, Repr

/-- The retry loop of `_salvar_com_retry`, from attempt index `tentativa`
up to `tentativas_max`: a successful insert returns immediately; a failed
attempt is followed by a sleep of `0.5 * (tentativa + 1)` seconds unless
it was the last; exhausting the loop returns `False`. The backend oracle
maps an attempt index to whether the insert succeeded (an exception or an
empty-data response both count as failure, as in the source). -/
def salvarComRetryFrom (backend : Nat → Bool) (tentativas_max tentativa : Nat) :
    RetryTrace :=
  if tentativas_max ≤ tentativa then ⟨false, 0, []⟩
  else if backend tentativa then ⟨true, 1, []⟩
  else
    let rest := salvarComRetryFrom backend tentativas_max (tentativa + 1)
    let sleepsHere : List ℚ :=
      if tentativa < tentativas_max - 1 then [(1 / 2 : ℚ) * (tentativa + 1)] else []
    ⟨rest.sucesso, rest.tentativas + 1, sleepsHere ++ rest.sleeps⟩
termination_by tentativas_max - tentativa

/-- Model of `DatabaseService._salvar_com_retry` with its default of 3
maximum attempts. -/
def salvarComRetry (backend : Nat → Bool) : RetryTrace :=
  salvarComRetryFrom backend 3 0

/-- One iteration of the drain loop `_processar_fila_logs`
(`database_service.py` lines 56-74) on a non-empty queue: dequeue a
record and attempt persistence with retry; on success increment
`total_processados`, on exhausted retries increment `total_falha` and
append exactly one entry to the local fallback file tagged
`"erro_supabase"` with a freshly generated correlation id (the uuid and
timestamp are oracle arguments). -/
def processOneRecord (backend : Nat → Bool) (uuid time : String)
    (st : DbState α) : DbState α :=
  match st.fila with
  | [] => st
  | dados :: rest =>
    let tr := salvarComRetry backend
    if tr.sucesso then
      { st with fila := rest, total_processados := st.total_processados + 1 }
    else
      { st with
        fila := rest
        total_falha := st.total_falha + 1
        fallback_file := st.fallback_file ++ [⟨uuid, time, "erro_supabase", dados⟩] }

/-- Model of `registrar_transacao_async` (`database_service.py` lines
26-46) as seen by the enqueuing caller: the record is appended to the
queue and the call returns; it is a total function, matching the
source's catch-all that never lets an exception reach the caller. -/
def registrarTransacaoAsync (st : DbState α) (dados : α) : DbState α :=
  { st with fila := st.fila ++ [dados] }

/-! Concrete inputs used by counterexamples and witnesses. -/

/-- A reversal request whose client-supplied provider code is "111111". -/
def reversalReqA : ReversalRequest :=
  ⟨"49XCDF6", "Mpesa2019", "MPesa2018", "REV_001", some "111111", Option.none⟩

/-- The same reversal request except for the client-supplied provider
code, here "222222". -/
def reversalReqB : ReversalRequest :=
  ⟨"49XCDF6", "Mpesa2019", "MPesa2018", "REV_001", some "222222", Option.none⟩

/-- The concrete C2B request of the spec's scenario (section 8):
`transaction_reference="ORDER_1"`, `amount=100.0`,
`customer_msisdn="258843330333"`, no client token. -/
def c9Request : C2BPaymentRequest :=
  ⟨"ORDER_1", "258843330333", "100.0", Option.none⟩

/-- The gateway body of the C9 scenario:
`{output_ResponseCode: "INS-0", output_TransactionID: "T1"}`. -/
def c9GatewayBody : BodyVal :=
  BodyVal.dict [("output_ResponseCode", PyVal.str "INS-0"),
    ("output_TransactionID", PyVal.str "T1")]

/-- The gateway result of the C9 scenario: status 200, so the client sets
`success=true`. -/
def c9Gateway : GatewayResult := executeRequestOk 200 (some c9GatewayBody)

/-- The orchestrator response produced by the C9 scenario. -/
def c9Response : C2BPaymentResponse :=
  (processPayment c9Request [] "20250101120000" "a1b2c3d4" (Except.ok c9Gateway)).1

/-- A gateway result reporting success (status 200) whose body is a string
that JSON parsing rejects. -/
def c6Gateway : GatewayResult :=
  executeRequestOk 200 (some (BodyVal.str "not valid json" Option.none))

/-- The response the orchestrator actually produces for `c6Gateway`: the
default code of the success branch. -/
def c6Response : C2BPaymentResponse :=
  ⟨Option.none, Option.none, "REF6", "INS-0", "Request processed successfully"⟩

/-! Helper lemmas. -/

/-- A generated third-party reference is never the empty string (it starts
with the 6-character prefix `mpesa_`). -/
theorem gerar_third_party_reference_ne_empty (ts rnd : String) :
    gerar_third_party_reference ts rnd ≠ "" := by
  unfold gerar_third_party_reference
  intro h
  have hl := congrArg String.length h
  simp only [String.length_append] at hl
  have h6 : ("mpesa_" : String).length = 6 := rfl
  have h1 : ("_" : String).length = 1 := rfl
  have h0 : ("" : String).length = 0 := rfl
  omega

/-- The hybrid policy never resolves to the empty string: an accepted
client token passed its truthiness check, and a generated token carries
the `mpesa_` prefix. -/
theorem obter_third_party_reference_ne_empty (tok : Option String)
    (used : List String) (ts rnd : String) :
    obter_third_party_reference tok used ts rnd ≠ "" := by
  unfold obter_third_party_reference
  cases tok with
  | none => exact gerar_third_party_reference_ne_empty ts rnd
  | some ref =>
    by_cases he : ref.isEmpty
    · simp [he, gerar_third_party_reference_ne_empty ts rnd]
    · simp only [he, Bool.not_false, if_true]
      split
      · exact gerar_third_party_reference_ne_empty ts rnd
      · intro hr
        subst hr
        exact he rfl

/-- Every response the success branch returns carries the resolved
reference. -/
theorem processSuccessBranch_ref (corpo : List (String × PyVal)) (ref : String)
    (r : C2BPaymentResponse) (h : processSuccessBranch corpo ref = Except.ok r) :
    r.third_party_reference = ref := by
  unfold processSuccessBranch at h
  dsimp only at h
  split at h <;> simp only [Except.ok.injEq, reduceCtorEq] at h
  subst h
  rfl

/-- Every response the error branch returns carries the resolved
reference. -/
theorem processErrorBranch_ref (corpo : List (String × PyVal)) (ref : String)
    (r : C2BPaymentResponse) (h : processErrorBranch corpo ref = Except.ok r) :
    r.third_party_reference = ref := by
  unfold processErrorBranch at h
  dsimp only at h
  split at h <;> simp only [Except.ok.injEq, reduceCtorEq] at h
  subst h
  rfl

/-- Every response `_processar_resposta_mpesa` returns carries the
resolved reference. -/
theorem processar_resposta_mpesa_ref (resultado : GatewayResult) (ref : String)
    (r : C2BPaymentResponse) (h : processar_resposta_mpesa resultado ref = Except.ok r) :
    r.third_party_reference = ref := by
  unfold processar_resposta_mpesa at h
  split at h
  · simp only [Except.ok.injEq] at h
    subst h
    rfl
  · split at h
    · exact absurd h (by simp)
    · split at h
      · exact processSuccessBranch_ref _ _ _ h
      · exact processErrorBranch_ref _ _ _ h

/-- The table rows with `success = false` all carry one of the seven HTTP
statuses that actually occur in the table. -/
theorem mpesa_codes_failure_statuses :
    ∀ p ∈ MPESA_RESPONSE_CODES, p.2.success = false →
      p.2.http_status ∈ [400, 401, 408, 409, 422, 500, 503] := by decide

/-! Claim theorems. -/

/-- C1 (counterexample): two reversal requests that agree on every field
except the client-supplied `service_provider_code` produce outbound
payloads with different `input_ServiceProviderCode` entries, so the
shortcode placed in the gateway payload is not independent of
client-supplied fields in the reversal family. -/
theorem C1_counterexample :
    reversalReqA.transaction_id = reversalReqB.transaction_id ∧
    reversalReqA.security_credential = reversalReqB.security_credential ∧
    reversalReqA.initiator_identifier = reversalReqB.initiator_identifier ∧
    reversalReqA.third_party_reference = reversalReqB.third_party_reference ∧
    reversalReqA.reversal_amount = reversalReqB.reversal_amount ∧
    payloadGet (reversalPayload reversalReqA) "input_ServiceProviderCode" = some "111111" ∧
    payloadGet (reversalPayload reversalReqB) "input_ServiceProviderCode" = some "222222" ∧
    payloadGet (reversalPayload reversalReqA) "input_ServiceProviderCode" ≠
      payloadGet (reversalPayload reversalReqB) "input_ServiceProviderCode" := by
  decide

/-- C1 (amended): the provider shortcode in the outbound payload is taken
from server-side configuration, independently of every client field, for
the C2B family; for the reversal and query-customer families it is taken
from the client-supplied `service_provider_code` field, with the constant
`"900579"` substituted when that field is absent or empty. -/
theorem C1_amended :
    (∀ (s : Settings) (req : C2BPaymentRequest) (ref : String),
      payloadGet (c2bPayload s req ref) "input_ServiceProviderCode" =
        some s.MPESA_SERVICE_PROVIDER_CODE) ∧
    (∀ r : ReversalRequest,
      payloadGet (reversalPayload r) "input_ServiceProviderCode" =
        some (pyOrStr r.service_provider_code "900579")) ∧
    (∀ q : QueryCustomerRequest,
      payloadGet (queryCustomerPayload q) "input_ServiceProviderCode" =
        some (pyOrStr q.service_provider_code "900579")) := by
  refine ⟨fun s req ref => rfl, fun r => rfl, fun q => rfl⟩

/-- C2 (code evaluated at the failing input): each request is handled by a
freshly constructed service whose used-set starts empty, so a second
request submitting the already-used token "DUP1" resolves to "DUP1"
again — it does not observe the token the first request inserted — while
a resolution against the first request's resulting state would have
regenerated. -/
theorem C2_per_request_state_eval :
    (handleC2BResolution (some "DUP1") "20250101000000" "aaaaaaaa").1 = "DUP1" ∧
    "DUP1" ∈ (handleC2BResolution (some "DUP1") "20250101000000" "aaaaaaaa").2 ∧
    (handleC2BResolution (some "DUP1") "20250102000000" "bbbbbbbb").1 = "DUP1" ∧
    (resolveReference (some "DUP1")
        ((handleC2BResolution (some "DUP1") "20250101000000" "aaaaaaaa").2)
        "20250102000000" "bbbbbbbb").1 =
      gerar_third_party_reference "20250102000000" "bbbbbbbb" := by
  decide

/-- C4: the response-code translator is total by construction; the
designated success code "INS-0" maps to `success=true` with HTTP status
201, and every string that is not a key of the table maps to the fixed
"INS-999" fallback entry (HTTP 500, `success=false`). -/
theorem C4_translator_total (c : String)
    (h : MPESA_RESPONSE_CODES.find? (fun p => p.1 == c) = Option.none) :
    get_mpesa_code_info "INS-0" = ⟨201, "Request processed successfully", true⟩ ∧
    get_mpesa_code_info c = ⟨500, "Unknown M-Pesa error", false⟩ := by
  constructor
  · rfl
  · unfold get_mpesa_code_info
    rw [h]
    decide

/-- Witness for C4 at the unmapped string "NOT-A-CODE". -/
theorem C4_translator_total_witness :
    get_mpesa_code_info "INS-0" = ⟨201, "Request processed successfully", true⟩ ∧
    get_mpesa_code_info "NOT-A-CODE" = ⟨500, "Unknown M-Pesa error", false⟩ :=
  C4_translator_total "NOT-A-CODE" (by decide)

/-- C6 (counterexample): a gateway result that reports success (status
200) with a body string JSON parsing rejects is answered with the success
default "INS-0" — which translates to `success=true` — not with the
claimed "INS-999" failure response. -/
theorem C6_counterexample :
    processar_resposta_mpesa c6Gateway "REF6" = Except.ok c6Response ∧
    c6Response.response_code = "INS-0" ∧
    c6Response.response_code ≠ "INS-999" ∧
    (get_mpesa_code_info c6Response.response_code).success = true := by
  refine ⟨rfl, by decide, by decide, by decide⟩

/-- C6 (amended): when the gateway reports success and the body is missing
or `None`, the orchestrator returns the fixed "INS-999" failure response;
but when the body is a present string that cannot be parsed, the success
branch substitutes the empty dict and defaults the code to "INS-0",
reporting success. -/
theorem C6_amended :
    (∀ (resultado : GatewayResult) (ref : String), resultado.body = Option.none →
      processar_resposta_mpesa resultado ref =
        Except.ok ⟨Option.none, Option.none, ref, "INS-999",
          "Resposta inválida da M-Pesa (sem body)"⟩) ∧
    (∀ (raw ref : String),
      processar_resposta_mpesa (executeRequestOk 200 (some (BodyVal.str raw Option.none))) ref =
        Except.ok ⟨Option.none, Option.none, ref, "INS-0",
          "Request processed successfully"⟩) := by
  constructor
  · intro resultado ref h
    unfold processar_resposta_mpesa
    rw [h]
  · intro raw ref
    rfl

/-- Witness for C6 (amended) at a transport-failure result and at a
concrete unparseable body. -/
theorem C6_amended_witness :
    processar_resposta_mpesa (transportFailureResult "boom") "W6" =
      Except.ok ⟨Option.none, Option.none, "W6", "INS-999",
        "Resposta inválida da M-Pesa (sem body)"⟩ ∧
    processar_resposta_mpesa (executeRequestOk 200 (some (BodyVal.str "oops" Option.none))) "W6" =
      Except.ok ⟨Option.none, Option.none, "W6", "INS-0",
        "Request processed successfully"⟩ :=
  ⟨C6_amended.1 (transportFailureResult "boom") "W6" rfl, C6_amended.2 "oops" "W6"⟩

/-- C7 (counterexample): the non-success entry "INS-9" of the table maps
to HTTP status 408, which is outside the claimed set
(400, 401, 409, 422, 500, 502, 503). -/
theorem C7_counterexample :
    get_mpesa_code_info "INS-9" = ⟨408, "Request timeout", false⟩ ∧
    (get_mpesa_code_info "INS-9").success = false ∧
    (get_mpesa_code_info "INS-9").http_status ∉ [400, 401, 409, 422, 500, 502, 503] := by
  decide

/-- C7 (amended): every response code whose translation has
`success=false` is translated to an HTTP status in
(400, 401, 408, 409, 422, 500, 503) — the set actually occurring in the
table, which includes 408 and omits 502. -/
theorem C7_amended (c : String) (h : (get_mpesa_code_info c).success = false) :
    (get_mpesa_code_info c).http_status ∈ [400, 401, 408, 409, 422, 500, 503] := by
  unfold get_mpesa_code_info at h ⊢
  cases hf : MPESA_RESPONSE_CODES.find? (fun p => p.1 == c) with
  | none => decide
  | some p =>
    rw [hf] at h
    exact mpesa_codes_failure_statuses p (List.mem_of_find?_eq_some hf) h

/-- Witness for C7 (amended) at the failing code "INS-1". -/
theorem C7_amended_witness :
    (get_mpesa_code_info "INS-1").success = false ∧
    (get_mpesa_code_info "INS-1").http_status ∈ [400, 401, 408, 409, 422, 500, 503] :=
  ⟨by decide, C7_amended "INS-1" (by decide)⟩

/-- C9: for the gateway reply status 200 / success=true with body
containing `output_ResponseCode` "INS-0" and `output_TransactionID` "T1",
the orchestrator response carries `response_code="INS-0"` and
`transaction_id="T1"`, and the endpoint returns a success envelope with
HTTP status 201. -/
theorem C9_success_scenario :
    c9Gateway.status_code = 200 ∧
    c9Gateway.success = true ∧
    c9Response.response_code = "INS-0" ∧
    c9Response.transaction_id = some "T1" ∧
    createC2BPaymentEnvelope c9Response =
      EndpointResult.ok 201 ⟨true, some c9Response, "Payment processed successfully"⟩ := by
  refine ⟨rfl, rfl, by decide, by decide, by decide⟩

/-- C10: the gateway client's non-exception result has `success=true`
exactly when the transport status is 200; in particular a status-201
reply carries `success=false` and is handled by the orchestrator's error
branch, visible in its "INS-999" default (the success branch on the same
empty body would default to "INS-0"). -/
theorem C10_success_iff_status_200 :
    (∀ (status : Nat) (body : Option BodyVal),
      (executeRequestOk status body).success = (status == 200)) ∧
    (executeRequestOk 201 (some (BodyVal.dict []))).success = false ∧
    processar_resposta_mpesa (executeRequestOk 201 (some (BodyVal.dict []))) "REF10" =
      Except.ok ⟨Option.none, Option.none, "REF10", "INS-999", "Unknown M-Pesa error"⟩ ∧
    processSuccessBranch [] "REF10" =
      Except.ok ⟨Option.none, Option.none, "REF10", "INS-0",
        "Request processed successfully"⟩ := by
  refine ⟨fun status body => rfl, by decide, rfl, rfl⟩

/-- C3: for every request, used-set state, generation oracle and gateway
client behaviour — the client raising, or returning any result dict —
`process_payment` returns a response (it is a total function, the model
of "never raises") whose `third_party_reference` is a non-empty string;
and when the gateway call failed at the transport level (the client
raised, or returned its exception-path result) the response code
translates to `success=false`. -/
theorem C3_process_payment_never_raises (req : C2BPaymentRequest)
    (used : List String) (ts rnd : String) (gw : Except String GatewayResult) :
    (processPayment req used ts rnd gw).1.third_party_reference ≠ "" ∧
    ((∃ e, gw = Except.error e ∨ gw = Except.ok (transportFailureResult e)) →
      (get_mpesa_code_info
        (processPayment req used ts rnd gw).1.response_code).success = false) := by
  constructor
  · cases gw with
    | error e => exact obter_third_party_reference_ne_empty _ _ _ _
    | ok resultado =>
      cases hp : processar_resposta_mpesa resultado
          (obter_third_party_reference req.third_party_reference used ts rnd) with
      | ok resposta =>
        have hred : (processPayment req used ts rnd (Except.ok resultado)).1 = resposta := by
          unfold processPayment
          dsimp only
          rw [hp]
        rw [hred, processar_resposta_mpesa_ref _ _ _ hp]
        exact obter_third_party_reference_ne_empty _ _ _ _
      | error e =>
        have hred : (processPayment req used ts rnd (Except.ok resultado)).1 =
            processPaymentCatch
              (obter_third_party_reference req.third_party_reference used ts rnd) e := by
          unfold processPayment
          dsimp only
          rw [hp]
        rw [hred]
        exact obter_third_party_reference_ne_empty _ _ _ _
  · rintro ⟨e, he | he⟩
    · subst he
      show (get_mpesa_code_info "INS-999").success = false
      decide
    · subst he
      show (get_mpesa_code_info "INS-999").success = false
      decide

/-- Witness for C3: a forced transport exception on a concrete request
still yields a non-empty reference and a failure-translating code. -/
theorem C3_process_payment_never_raises_witness :
    (processPayment c9Request [] "20250101120000" "a1b2c3d4"
      (Except.error "boom")).1.third_party_reference ≠ "" ∧
    (get_mpesa_code_info
      ((processPayment c9Request [] "20250101120000" "a1b2c3d4"
        (Except.error "boom")).1.response_code)).success = false :=
  ⟨(C3_process_payment_never_raises c9Request [] "20250101120000" "a1b2c3d4"
      (Except.error "boom")).1,
   (C3_process_payment_never_raises c9Request [] "20250101120000" "a1b2c3d4"
      (Except.error "boom")).2 ⟨"boom", Or.inl rfl⟩⟩

/-- An accepted resolution: a truthy client token not yet in the used-set
is returned unchanged and inserted. -/
theorem resolveReference_accept (t : String) (used : List String) (ts rnd : String)
    (ht : t.isEmpty = false) (h1 : t ∉ used) :
    resolveReference (some t) used ts rnd = (t, used.insert t) := by
  unfold resolveReference obter_third_party_reference
  simp [ht, h1]

/-- A duplicate resolution: a truthy client token already in the used-set
is replaced by the generated token, which is inserted. -/
theorem resolveReference_duplicate (t : String) (used : List String) (ts rnd : String)
    (ht : t.isEmpty = false) (h1 : t ∈ used) :
    resolveReference (some t) used ts rnd =
      (gerar_third_party_reference ts rnd,
        used.insert (gerar_third_party_reference ts rnd)) := by
  unfold resolveReference obter_third_party_reference
  simp [ht, h1]

/-- C5: if a first resolution accepted the client token `t` (it was
truthy and not yet in the used-set) and recorded it, then a second
resolution with the same `t` against the resulting state returns the
freshly generated token — different from `t`, under the spec's
negligible-collision assumption that the generated string is not `t`
itself — and afterwards the used-set contains both `t` and the
replacement. -/
theorem C5_duplicate_token_regenerated (t ts1 rnd1 ts2 rnd2 : String)
    (used : List String) (ht : t.isEmpty = false) (h1 : t ∉ used)
    (hfresh : gerar_third_party_reference ts2 rnd2 ≠ t) :
    (resolveReference (some t) used ts1 rnd1).1 = t ∧
    t ∈ (resolveReference (some t) used ts1 rnd1).2 ∧
    (resolveReference (some t) ((resolveReference (some t) used ts1 rnd1).2) ts2 rnd2).1 =
      gerar_third_party_reference ts2 rnd2 ∧
    (resolveReference (some t) ((resolveReference (some t) used ts1 rnd1).2) ts2 rnd2).1 ≠ t ∧
    t ∈ (resolveReference (some t) ((resolveReference (some t) used ts1 rnd1).2) ts2 rnd2).2 ∧
    (resolveReference (some t) ((resolveReference (some t) used ts1 rnd1).2) ts2 rnd2).1 ∈
      (resolveReference (some t) ((resolveReference (some t) used ts1 rnd1).2) ts2 rnd2).2 := by
  have hstep1 : resolveReference (some t) used ts1 rnd1 = (t, used.insert t) :=
    resolveReference_accept t used ts1 rnd1 ht h1
  have htmem1 : t ∈ used.insert t := by simp [List.mem_insert_iff]
  have hstep2 : resolveReference (some t) (used.insert t) ts2 rnd2 =
      (gerar_third_party_reference ts2 rnd2,
        (used.insert t).insert (gerar_third_party_reference ts2 rnd2)) :=
    resolveReference_duplicate t (used.insert t) ts2 rnd2 ht htmem1
  rw [hstep1]
  dsimp only
  rw [hstep2]
  dsimp only
  refine ⟨rfl, htmem1, rfl, hfresh, ?_, ?_⟩
  · simp [List.mem_insert_iff, htmem1]
  · simp [List.mem_insert_iff]

/-- Witness for C5: token "CLIENT1" against the empty used-set, with a
generation oracle whose output differs from the token. -/
theorem C5_duplicate_token_regenerated_witness :
    (resolveReference (some "CLIENT1") [] "20250101" "aaaa1111").1 = "CLIENT1" ∧
    "CLIENT1" ∈ (resolveReference (some "CLIENT1") [] "20250101" "aaaa1111").2 ∧
    (resolveReference (some "CLIENT1")
      ((resolveReference (some "CLIENT1") [] "20250101" "aaaa1111").2) "20250102" "bbbb2222").1 =
      gerar_third_party_reference "20250102" "bbbb2222" ∧
    (resolveReference (some "CLIENT1")
      ((resolveReference (some "CLIENT1") [] "20250101" "aaaa1111").2) "20250102" "bbbb2222").1 ≠
      "CLIENT1" ∧
    "CLIENT1" ∈ (resolveReference (some "CLIENT1")
      ((resolveReference (some "CLIENT1") [] "20250101" "aaaa1111").2) "20250102" "bbbb2222").2 ∧
    (resolveReference (some "CLIENT1")
      ((resolveReference (some "CLIENT1") [] "20250101" "aaaa1111").2) "20250102" "bbbb2222").1 ∈
      (resolveReference (some "CLIENT1")
        ((resolveReference (some "CLIENT1") [] "20250101" "aaaa1111").2) "20250102" "bbbb2222").2 :=
  C5_duplicate_token_regenerated "CLIENT1" "20250101" "aaaa1111" "20250102" "bbbb2222" []
    (by decide) (by decide) (by decide)

/-- C8: against a persistence backend that fails every attempt, the retry
helper makes exactly 3 insert attempts with linear backoff sleeps of
0.5s and 1.0s between them and returns failure; draining that record then
increments `total_falha` by exactly 1 and appends exactly one entry to
the local fallback file, tagged "erro_supabase" and carrying the freshly
generated correlation id; the enqueue seen by the caller is the total
function `registrarTransacaoAsync` (no exception propagates). -/
theorem C8_retry_exhaustion_fallback {α : Type} (backend : Nat → Bool)
    (hfail : ∀ n, backend n = false) (dados : α) (rest : List α)
    (st : DbState α) (uuid time : String) (hq : st.fila = dados :: rest) :
    (salvarComRetry backend).sucesso = false ∧
    (salvarComRetry backend).tentativas = 3 ∧
    (salvarComRetry backend).sleeps = [(1 / 2 : ℚ), 1] ∧
    (processOneRecord backend uuid time st).total_falha = st.total_falha + 1 ∧
    (processOneRecord backend uuid time st).fallback_file =
      st.fallback_file ++ [⟨uuid, time, "erro_supabase", dados⟩] ∧
    (processOneRecord backend uuid time st).total_processados = st.total_processados ∧
    (registrarTransacaoAsync st dados).fila = st.fila ++ [dados] := by
  have htrace : salvarComRetry backend = ⟨false, 3, [(1 / 2 : ℚ), 1]⟩ := by
    unfold salvarComRetry
    rw [salvarComRetryFrom, salvarComRetryFrom, salvarComRetryFrom, salvarComRetryFrom]
    simp [hfail]
    norm_num
  have hproc : processOneRecord backend uuid time st =
      { st with
        fila := rest
        total_falha := st.total_falha + 1
        fallback_file := st.fallback_file ++ [⟨uuid, time, "erro_supabase", dados⟩] } := by
    unfold processOneRecord
    rw [hq]
    dsimp only
    rw [htrace]
    simp
  refine ⟨by rw [htrace], by rw [htrace], by rw [htrace], ?_, ?_, ?_, rfl⟩
  · rw [hproc]
  · rw [hproc]
  · rw [hproc]

/-- Witness for C8: the always-failing backend applied to a singleton
queue holding the record `7`. -/
theorem C8_retry_exhaustion_fallback_witness :
    (salvarComRetry (fun _ => false)).sucesso = false ∧
    (salvarComRetry (fun _ => false)).tentativas = 3 ∧
    (salvarComRetry (fun _ => false)).sleeps = [(1 / 2 : ℚ), 1] ∧
    (processOneRecord (fun _ => false) "uuid-1" "2025-01-01"
      (⟨[7], true, 0, 0, []⟩ : DbState Nat)).total_falha = 0 + 1 ∧
    (processOneRecord (fun _ => false) "uuid-1" "2025-01-01"
      (⟨[7], true, 0, 0, []⟩ : DbState Nat)).fallback_file =
      [] ++ [⟨"uuid-1", "2025-01-01", "erro_supabase", 7⟩] ∧
    (processOneRecord (fun _ => false) "uuid-1" "2025-01-01"
      (⟨[7], true, 0, 0, []⟩ : DbState Nat)).total_processados = 0 ∧
    (registrarTransacaoAsync (⟨[7], true, 0, 0, []⟩ : DbState Nat) 7).fila = [7] ++ [7] :=
  C8_retry_exhaustion_fallback (fun _ => false) (fun _ => rfl) 7 []
    ⟨[7], true, 0, 0, []⟩ "uuid-1" "2025-01-01" rfl

end MpesaVerif
